import Mathlib

/-!
Shallow embedding of `src/backend/init_db.py`, a one-shot PostgreSQL
bootstrap script.  The script reads five environment variables, validates
the three required ones with Python truthiness, connects via
`psycopg2.connect`, executes one `CREATE TABLE IF NOT EXISTS predictions`
statement, commits, closes the cursor and the connection, and prints a
confirmation.  There is no exception handler anywhere in the script.

The embedding models
  - the process environment as the five variables the script reads;
  - the external world (driver responses to connect / execute / commit) as
    `Except String Unit` results, so that a raised driver exception is a
    concrete error value the script either propagates or not;
  - the observable behaviour of one run as an `Outcome` (normal exit or a
    propagated Python exception), a trace of the calls the script makes in
    order, and the committed database state after the run.

Database state is a list of tables (name, columns, rows); the single DDL
statement is modelled both as the literal SQL string of the source and as a
structured column list, with a rendering lemma tying the two together.
Transactional DDL semantics: the schema change is persisted only when
execute and commit both succeed.
-/

namespace InitDb

/-- A Python value that is either a string from the environment or the
literal int default, as produced by `os.environ.get("POSTGRES_PORT", 5432)`. -/
inductive PyStrOrInt where
  | str (s : String)
  | int (n : Int)
deriving DecidableEq, Repr

/-- The process environment restricted to the five variables the script
reads (after `load_dotenv` has possibly populated them); `none` means the
variable is unset. -/
structure Env where
  POSTGRES_DB : Option String
  POSTGRES_USER : Option String
  POSTGRES_PASSWORD : Option String
  POSTGRES_HOST : Option String
  POSTGRES_PORT : Option String
deriving DecidableEq, Repr

/-- Python truthiness of `os.environ.get(name)`: `None` and the empty
string are falsy, every other string is truthy.  This is the test
`if not dbname or not user or not password` performs on each variable. -/
def pyFalsy : Option String → Bool
  | none => true
  | some s => s == ""

/-- `os.environ.get("POSTGRES_HOST", "localhost")`: the default applies
only when the variable is entirely unset. -/
def resolveHost : Option String → String
  | none => "localhost"
  | some s => s

/-- `os.environ.get("POSTGRES_PORT", 5432)`: an environment-supplied value
stays a string, the default is the integer `5432`. -/
def resolvePort : Option String → PyStrOrInt
  | none => PyStrOrInt.int 5432
  | some s => PyStrOrInt.str s

/-- The validation on lines 16-17 of the script passes. -/
def validEnv (e : Env) : Bool :=
  !(pyFalsy e.POSTGRES_DB || pyFalsy e.POSTGRES_USER || pyFalsy e.POSTGRES_PASSWORD)

/-- One column of a `CREATE TABLE` statement: name, SQL type, and the
constraints the source statement uses. -/
structure Column where
  name : String
  sqlType : String
  notNull : Bool
  primaryKey : Bool
  dflt : Option String
deriving DecidableEq, Repr

/-- The column list of the `CREATE TABLE IF NOT EXISTS predictions`
statement on lines 31-44 of the script, one entry per source line. -/
def predictionsColumns : List Column :=
  [ ⟨"id", "SERIAL", false, true, none⟩,
    ⟨"prediction_id", "UUID", true, false, none⟩,
    ⟨"image_path", "TEXT", false, false, none⟩,
    ⟨"class_name", "TEXT", false, false, none⟩,
    ⟨"confidence", "FLOAT", false, false, none⟩,
    ⟨"bbox_left", "INT", false, false, none⟩,
    ⟨"bbox_top", "INT", false, false, none⟩,
    ⟨"bbox_width", "INT", false, false, none⟩,
    ⟨"bbox_height", "INT", false, false, none⟩,
    ⟨"created_at", "TIMESTAMP", false, false, some "NOW()"⟩ ]

/-- Render one column back to its SQL fragment. -/
def renderColumn (c : Column) : String :=
  c.name ++ " " ++ c.sqlType
    ++ (if c.primaryKey then " PRIMARY KEY" else "")
    ++ (if c.notNull then " NOT NULL" else "")
    ++ (match c.dflt with
        | some d => " DEFAULT " ++ d
        | none => "")

/-- Render the structured column list back to the full DDL text. -/
def renderDDL (cols : List Column) : String :=
  "\nCREATE TABLE IF NOT EXISTS predictions (\n"
    ++ String.intercalate ",\n" (cols.map (fun c => "    " ++ renderColumn c))
    ++ "\n)\n"

/-- The exact triple-quoted SQL string passed to `cursor.execute` in the
source. -/
def createTableSQL : String :=
  "\nCREATE TABLE IF NOT EXISTS predictions (\n    id SERIAL PRIMARY KEY,\n    prediction_id UUID NOT NULL,\n    image_path TEXT,\n    class_name TEXT,\n    confidence FLOAT,\n    bbox_left INT,\n    bbox_top INT,\n    bbox_width INT,\n    bbox_height INT,\n    created_at TIMESTAMP DEFAULT NOW()\n)\n"

set_option maxRecDepth 4000 in
/-- The structured column list renders to exactly the SQL text of the
source, so the two representations describe the same statement. -/
theorem renderDDL_predictionsColumns : renderDDL predictionsColumns = createTableSQL := by
  rfl

/-- One table of the database: name, column shape, and current rows (a row
is one optional value per column). -/
structure TableDef where
  name : String
  columns : List Column
  rows : List (List (Option String))
deriving DecidableEq, Repr

/-- Database state: the list of existing tables. -/
abbrev DBState := List TableDef

/-- PostgreSQL semantics of `CREATE TABLE IF NOT EXISTS`: a no-op when a
table of that name exists, otherwise the new table is added empty. -/
def applyCreateIfNotExists (db : DBState) (nm : String) (cols : List Column) : DBState :=
  if db.any (fun t => t.name == nm) then db else db ++ [⟨nm, cols, []⟩]

/-- The keyword arguments the script passes to `psycopg2.connect`. -/
structure ConnParams where
  dbname : String
  user : String
  password : String
  host : String
  port : PyStrOrInt
deriving DecidableEq, Repr

/-- The connect parameters are determined by the environment alone:
`dbname`, `user`, `password` are the (validated, hence present) values,
host and port get their defaults only when unset. -/
def connParams (env : Env) : ConnParams :=
  ⟨env.POSTGRES_DB.getD "", env.POSTGRES_USER.getD "", env.POSTGRES_PASSWORD.getD "",
   resolveHost env.POSTGRES_HOST, resolvePort env.POSTGRES_PORT⟩

/-- The externally observable calls the script makes, in program order. -/
inductive Event where
  | connect (p : ConnParams)
  | execute (sql : String)
  | commit
  | cursorClose
  | connClose
  | printed (msg : String)
deriving DecidableEq, Repr

/-- A Python exception escaping the script: the `ValueError` the script
raises itself, or an exception raised by the database driver and
propagated untouched. -/
inductive PyExc where
  | valueError (msg : String)
  | driverError (msg : String)
deriving DecidableEq, Repr

/-- How one run of the script ends: normal termination, or an uncaught
exception. -/
inductive Outcome where
  | success
  | raised (e : PyExc)
deriving DecidableEq, Repr

/-- Process exit status: 0 on normal termination, 1 when an uncaught
exception terminates the interpreter. -/
def exitCode : Outcome → Nat
  | Outcome.success => 0
  | Outcome.raised _ => 1

/-- The responses of the external database to the three fallible calls the
script can make: `Except.error e` models the driver raising exception `e`. -/
structure World where
  connectRes : Except String Unit
  executeRes : Except String Unit
  commitRes : Except String Unit

/-- The world in which the database is reachable and every call succeeds. -/
def World.allOk : World := ⟨Except.ok (), Except.ok (), Except.ok ()⟩

/-- Everything one run produces: how it ended, the calls it made in order,
and the committed database state afterwards. -/
structure RunResult where
  outcome : Outcome
  trace : List Event
  db : DBState
deriving DecidableEq, Repr

/-- The message of the `ValueError` raised on failed validation. -/
def requiredMsg : String :=
  "POSTGRES_DB, POSTGRES_USER, and POSTGRES_PASSWORD must be set in environment variables."

/-- The confirmation line printed on success. -/
def successMsg : String := "Database initialized successfully."

/-- One run of the script, translated line by line from the source:
validate, connect, execute the single DDL statement, commit, close the
cursor, close the connection, print.  There is no exception handler, so
the first failing call ends the run with that exception and none of the
later calls happen; in particular the two `close` calls are reached only
on the all-success path.  The committed database state changes only when
both execute and commit succeed (transactional DDL); a connection closed
without commit aborts the transaction. -/
def run (env : Env) (w : World) (db : DBState) : RunResult :=
  if pyFalsy env.POSTGRES_DB || pyFalsy env.POSTGRES_USER || pyFalsy env.POSTGRES_PASSWORD then
    ⟨Outcome.raised (PyExc.valueError requiredMsg), [], db⟩
  else
    match w.connectRes with
    | Except.error e =>
        ⟨Outcome.raised (PyExc.driverError e), [Event.connect (connParams env)], db⟩
    | Except.ok _ =>
      match w.executeRes with
      | Except.error e =>
          ⟨Outcome.raised (PyExc.driverError e),
           [Event.connect (connParams env), Event.execute createTableSQL], db⟩
      | Except.ok _ =>
        match w.commitRes with
        | Except.error e =>
            ⟨Outcome.raised (PyExc.driverError e),
             [Event.connect (connParams env), Event.execute createTableSQL, Event.commit], db⟩
        | Except.ok _ =>
            ⟨Outcome.success,
             [Event.connect (connParams env), Event.execute createTableSQL, Event.commit,
              Event.cursorClose, Event.connClose, Event.printed successMsg],
             applyCreateIfNotExists db "predictions" predictionsColumns⟩

/-- Recognizer for `execute` events. -/
def isExecuteEvent : Event → Bool
  | Event.execute _ => true
  | _ => false

/-- Recognizer for `printed` events. -/
def isPrintedEvent : Event → Bool
  | Event.printed _ => true
  | _ => false

/-- Look up a column of the created table by name. -/
def colNamed (n : String) : Option Column :=
  predictionsColumns.find? (fun c => c.name == n)

/-- A column needs no caller-supplied value when the engine supplies one:
`SERIAL` columns are auto-incremented and `DEFAULT` columns get their
default. -/
def colAutoSupplied (c : Column) : Bool :=
  c.sqlType == "SERIAL" || c.dflt.isSome

/-- PostgreSQL insert-time check for the created shape: a row (a map from
column name to optional provided value) is accepted iff every column
either receives a value, or is nullable, or is engine-supplied. -/
def rowAccepted (cols : List Column) (r : String → Option String) : Bool :=
  cols.all (fun c => (r c.name).isSome || !c.notNull || colAutoSupplied c)

/-- A concrete valid environment used by witnesses. -/
def envEx : Env := ⟨some "detect", some "u", some "p", none, none⟩

/-- A world in which the DDL execute raises (for example a privilege
error). -/
def wExecFail : World :=
  ⟨Except.ok (), Except.error "permission denied for schema public", Except.ok ()⟩

/-- A world in which the connect call itself raises. -/
def wConnFail : World :=
  ⟨Except.error "could not connect to server", Except.ok (), Except.ok ()⟩

/-- On a valid environment and a fully reachable database every step
succeeds: the run commits the single DDL statement, closes both handles
and prints the confirmation, and the committed state gains the
`predictions` table unless it already holds one. -/
theorem run_valid_allOk (env : Env) (db : DBState) (hv : validEnv env = true) :
    run env World.allOk db =
      ⟨Outcome.success,
       [Event.connect (connParams env), Event.execute createTableSQL, Event.commit,
        Event.cursorClose, Event.connClose, Event.printed successMsg],
       applyCreateIfNotExists db "predictions" predictionsColumns⟩ := by
  have hc : (pyFalsy env.POSTGRES_DB || pyFalsy env.POSTGRES_USER ||
      pyFalsy env.POSTGRES_PASSWORD) = false := by
    simpa [validEnv] using hv
  simp [run, hc, World.allOk]

/-- Applying the idempotent DDL twice equals applying it once. -/
theorem applyCreate_idem (db : DBState) (nm : String) (cols : List Column) :
    applyCreateIfNotExists (applyCreateIfNotExists db nm cols) nm cols =
      applyCreateIfNotExists db nm cols := by
  by_cases h : db.any (fun t => t.name == nm)
  · simp [applyCreateIfNotExists, h]
  · simp [applyCreateIfNotExists, h]

/-- After the idempotent DDL, a database that held at most one table of
the target name holds exactly one. -/
theorem applyCreate_countP (db : DBState) (nm : String) (cols : List Column)
    (h : db.countP (fun t => t.name == nm) ≤ 1) :
    (applyCreateIfNotExists db nm cols).countP (fun t => t.name == nm) = 1 := by
  by_cases ha : db.any (fun t => t.name == nm)
  · have h1 : 0 < db.countP (fun t => t.name == nm) := by
      rcases List.any_eq_true.mp ha with ⟨t, ht, hp⟩
      exact List.countP_pos_iff.mpr ⟨t, ht, hp⟩
    simp only [applyCreateIfNotExists, ha, if_true]
    omega
  · have ha' : db.any (fun t => t.name == nm) = false := by
      simpa using ha
    have h0 : db.countP (fun t => t.name == nm) = 0 :=
      List.countP_eq_zero.mpr (List.any_eq_false.mp ha')
    simp [applyCreateIfNotExists, ha, List.countP_append, h0]

/-- The idempotent DDL never rewrites an existing prefix of the database:
every pre-existing table keeps its name, columns and rows. -/
theorem applyCreate_take (db : DBState) (nm : String) (cols : List Column) :
    (applyCreateIfNotExists db nm cols).take db.length = db := by
  by_cases h : db.any (fun t => t.name == nm)
  · simp [applyCreateIfNotExists, h]
  · simp [applyCreateIfNotExists, h, List.take_left]

/-- The idempotent DDL either leaves the database unchanged or appends the
new empty table at the end. -/
theorem applyCreate_cases (db : DBState) (nm : String) (cols : List Column) :
    applyCreateIfNotExists db nm cols = db ∨
      applyCreateIfNotExists db nm cols = db ++ [⟨nm, cols, []⟩] := by
  by_cases h : db.any (fun t => t.name == nm) <;> simp [applyCreateIfNotExists, h]

/-- Claim C1: whenever any of POSTGRES_DB, POSTGRES_USER,
POSTGRES_PASSWORD is absent or bound to the empty string, the run raises
the ValueError of the validation block, makes no external call at all (in
particular no connect call), leaves every database unchanged, and the
process exits with status 1. -/
theorem config_error_stops_run (env : Env) (w : World) (db : DBState)
    (h : env.POSTGRES_DB = none ∨ env.POSTGRES_DB = some "" ∨
         env.POSTGRES_USER = none ∨ env.POSTGRES_USER = some "" ∨
         env.POSTGRES_PASSWORD = none ∨ env.POSTGRES_PASSWORD = some "") :
    run env w db = ⟨Outcome.raised (PyExc.valueError requiredMsg), [], db⟩ ∧
    exitCode (run env w db).outcome = 1 := by
  have hc : (pyFalsy env.POSTGRES_DB || pyFalsy env.POSTGRES_USER ||
      pyFalsy env.POSTGRES_PASSWORD) = true := by
    rcases h with h | h | h | h | h | h <;> simp [pyFalsy, h]
  constructor
  · simp [run, hc]
  · simp [run, hc, exitCode]

/-- Witness for C1 at a concrete environment missing POSTGRES_DB. -/
theorem config_error_stops_run_wit :
    run ⟨none, some "u", some "p", none, none⟩ World.allOk [] =
      ⟨Outcome.raised (PyExc.valueError requiredMsg), [], []⟩ ∧
    exitCode (run ⟨none, some "u", some "p", none, none⟩ World.allOk []).outcome = 1 :=
  config_error_stops_run ⟨none, some "u", some "p", none, none⟩ World.allOk [] (Or.inl rfl)

/-- Claim C5: with the three required variables set and non-empty and
POSTGRES_HOST / POSTGRES_PORT unset, the first call of every run is the
connect attempt, and its parameters carry host "localhost" and the
integer port 5432. -/
theorem default_host_and_port (env : Env) (w : World) (db : DBState)
    (hv : validEnv env = true)
    (hh : env.POSTGRES_HOST = none) (hp : env.POSTGRES_PORT = none) :
    (run env w db).trace.head? = some (Event.connect (connParams env)) ∧
    (connParams env).host = "localhost" ∧
    (connParams env).port = PyStrOrInt.int 5432 := by
  have hc : (pyFalsy env.POSTGRES_DB || pyFalsy env.POSTGRES_USER ||
      pyFalsy env.POSTGRES_PASSWORD) = false := by
    simpa [validEnv] using hv
  refine ⟨?_, ?_, ?_⟩
  · rcases w with ⟨wc, we, wcm⟩
    cases wc <;> cases we <;> cases wcm <;> simp [run, hc]
  · simp [connParams, hh, resolveHost]
  · simp [connParams, hp, resolvePort]

/-- Witness for C5 at a concrete environment with host and port unset. -/
theorem default_host_and_port_wit :
    (run envEx World.allOk []).trace.head? = some (Event.connect (connParams envEx)) ∧
    (connParams envEx).host = "localhost" ∧
    (connParams envEx).port = PyStrOrInt.int 5432 :=
  default_host_and_port envEx World.allOk [] (by decide) rfl rfl

/-- Claim C6: the script has no exception handler, so a driver error
raised at connect, execute or commit propagates unchanged as the run's
outcome, the process exits with status 1, and the committed database
state is exactly the initial one (in particular, on a failed connection
no predictions table is created in any database). -/
theorem errors_propagate_uncaught (env : Env) (w : World) (db : DBState) (e : String)
    (hv : validEnv env = true) :
    (w.connectRes = Except.error e →
       run env w db =
         ⟨Outcome.raised (PyExc.driverError e), [Event.connect (connParams env)], db⟩ ∧
       exitCode (run env w db).outcome = 1) ∧
    (w.connectRes = Except.ok () → w.executeRes = Except.error e →
       (run env w db).outcome = Outcome.raised (PyExc.driverError e) ∧
       exitCode (run env w db).outcome = 1 ∧ (run env w db).db = db) ∧
    (w.connectRes = Except.ok () → w.executeRes = Except.ok () →
        w.commitRes = Except.error e →
       (run env w db).outcome = Outcome.raised (PyExc.driverError e) ∧
       exitCode (run env w db).outcome = 1 ∧ (run env w db).db = db) := by
  have hc : (pyFalsy env.POSTGRES_DB || pyFalsy env.POSTGRES_USER ||
      pyFalsy env.POSTGRES_PASSWORD) = false := by
    simpa [validEnv] using hv
  refine ⟨?_, ?_, ?_⟩
  · intro h1
    constructor
    · simp [run, hc, h1]
    · simp [run, hc, h1, exitCode]
  · intro h1 h2
    refine ⟨?_, ?_, ?_⟩ <;> simp [run, hc, h1, h2, exitCode]
  · intro h1 h2 h3
    refine ⟨?_, ?_, ?_⟩ <;> simp [run, hc, h1, h2, h3, exitCode]

/-- Witness for C6: a concrete run whose connect call raises propagates
that very error, exits with status 1, and leaves the database empty. -/
theorem errors_propagate_uncaught_wit :
    run envEx wConnFail [] =
      ⟨Outcome.raised (PyExc.driverError "could not connect to server"),
       [Event.connect (connParams envEx)], []⟩ ∧
    exitCode (run envEx wConnFail []).outcome = 1 :=
  (errors_propagate_uncaught envEx wConnFail [] "could not connect to server"
    (by decide)).1 rfl

/-- Claim C10: the host default applies only to an entirely unset
POSTGRES_HOST, so an empty-string host is passed through as "" to the
connect call; the port default is the integer 5432 while a supplied port
stays a string; and for the required variables the empty string and
absence are both falsy (the asymmetry the claim describes). -/
theorem empty_host_not_defaulted (env : Env) (w : World) (db : DBState) (s : String)
    (hv : validEnv env = true)
    (hh : env.POSTGRES_HOST = some "") :
    (connParams env).host = "" ∧
    (run env w db).trace.head? = some (Event.connect (connParams env)) ∧
    resolveHost none = "localhost" ∧
    resolvePort none = PyStrOrInt.int 5432 ∧
    resolvePort (some s) = PyStrOrInt.str s ∧
    pyFalsy (some "") = true ∧ pyFalsy none = true := by
  have hc : (pyFalsy env.POSTGRES_DB || pyFalsy env.POSTGRES_USER ||
      pyFalsy env.POSTGRES_PASSWORD) = false := by
    simpa [validEnv] using hv
  refine ⟨?_, ?_, rfl, rfl, rfl, rfl, rfl⟩
  · simp [connParams, hh, resolveHost]
  · rcases w with ⟨wc, we, wcm⟩
    cases wc <;> cases we <;> cases wcm <;> simp [run, hc]

/-- Witness for C10 at a concrete environment with POSTGRES_HOST set to
the empty string. -/
theorem empty_host_not_defaulted_wit :
    (connParams ⟨some "detect", some "u", some "p", some "", none⟩).host = "" ∧
    (run ⟨some "detect", some "u", some "p", some "", none⟩ World.allOk []).trace.head? =
      some (Event.connect (connParams ⟨some "detect", some "u", some "p", some "", none⟩)) ∧
    resolveHost none = "localhost" ∧
    resolvePort none = PyStrOrInt.int 5432 ∧
    resolvePort (some "5433") = PyStrOrInt.str "5433" ∧
    pyFalsy (some "") = true ∧ pyFalsy none = true :=
  empty_host_not_defaulted ⟨some "detect", some "u", some "p", some "", none⟩
    World.allOk [] "5433" (by decide) rfl

set_option maxRecDepth 8000 in
/-- Claim C2 counterexample: on a concrete run in which the DDL execute
raises, the connection was opened and the statement issued, yet neither
`cursor.close` nor `conn.close` is ever called — the source has no
context manager or try/finally, so release is not guaranteed on all exit
paths. -/
theorem release_skipped_when_execute_raises :
    Event.connect (connParams envEx) ∈ (run envEx wExecFail []).trace ∧
    Event.execute createTableSQL ∈ (run envEx wExecFail []).trace ∧
    Event.cursorClose ∉ (run envEx wExecFail []).trace ∧
    Event.connClose ∉ (run envEx wExecFail []).trace := by
  decide

/-- Claim C2 (amended): the statement handle and the connection are
released — cursor first, then connection, after the commit — exactly on
the fully successful path; on every other outcome (a raised connect,
execute or commit error) the script performs no release at all. -/
theorem release_only_on_success_path (env : Env) (w : World) (db : DBState) :
    ((run env w db).outcome = Outcome.success →
       (run env w db).trace =
         [Event.connect (connParams env), Event.execute createTableSQL, Event.commit,
          Event.cursorClose, Event.connClose, Event.printed successMsg]) ∧
    ((run env w db).outcome ≠ Outcome.success →
       Event.cursorClose ∉ (run env w db).trace ∧
       Event.connClose ∉ (run env w db).trace) := by
  by_cases hc : pyFalsy env.POSTGRES_DB || pyFalsy env.POSTGRES_USER ||
      pyFalsy env.POSTGRES_PASSWORD
  · simp [run, hc]
  · rcases w with ⟨wc, we, wcm⟩
    cases wc <;> cases we <;> cases wcm <;>
      simp [run, hc]

/-- Witness for the amended C2 on a concrete successful run. -/
theorem release_only_on_success_path_wit :
    (run envEx World.allOk []).trace =
      [Event.connect (connParams envEx), Event.execute createTableSQL, Event.commit,
       Event.cursorClose, Event.connClose, Event.printed successMsg] :=
  (release_only_on_success_path envEx World.allOk []).1 (by decide)

/-- Claim C3: with the three required variables set and non-empty and the
database fully reachable, the run succeeds; a second consecutive run also
succeeds and leaves the database of the first run unchanged; the final
state holds exactly one `predictions` table (provided the initial state
held at most one, as any real catalog does); and every pre-existing table
— in particular an already-existing `predictions` table — keeps exactly
its name, columns and rows. -/
theorem idempotent_reinit (env : Env) (db : DBState)
    (hv : validEnv env = true)
    (hdb : db.countP (fun t => t.name == "predictions") ≤ 1) :
    (run env World.allOk db).outcome = Outcome.success ∧
    (run env World.allOk (run env World.allOk db).db).outcome = Outcome.success ∧
    (run env World.allOk (run env World.allOk db).db).db = (run env World.allOk db).db ∧
    ((run env World.allOk db).db.countP (fun t => t.name == "predictions")) = 1 ∧
    (run env World.allOk db).db.take db.length = db := by
  have h1 := run_valid_allOk env db hv
  have h2 := run_valid_allOk env
    (applyCreateIfNotExists db "predictions" predictionsColumns) hv
  refine ⟨?_, ?_, ?_, ?_, ?_⟩
  · rw [h1]
  · rw [h1]
    show (run env World.allOk
      (applyCreateIfNotExists db "predictions" predictionsColumns)).outcome =
        Outcome.success
    rw [h2]
  · rw [h1]
    show (run env World.allOk
      (applyCreateIfNotExists db "predictions" predictionsColumns)).db =
        applyCreateIfNotExists db "predictions" predictionsColumns
    rw [h2]
    exact applyCreate_idem db "predictions" predictionsColumns
  · rw [h1]
    exact applyCreate_countP db "predictions" predictionsColumns hdb
  · rw [h1]
    exact applyCreate_take db "predictions" predictionsColumns

/-- Witness for C3 at a concrete environment and the empty database. -/
theorem idempotent_reinit_wit :
    (run envEx World.allOk []).outcome = Outcome.success ∧
    (run envEx World.allOk (run envEx World.allOk []).db).outcome = Outcome.success ∧
    (run envEx World.allOk (run envEx World.allOk []).db).db =
      (run envEx World.allOk []).db ∧
    ((run envEx World.allOk []).db.countP (fun t => t.name == "predictions")) = 1 ∧
    (run envEx World.allOk []).db.take (List.length ([] : DBState)) = [] :=
  idempotent_reinit envEx [] (by decide) (by decide)

/-- Claim C4: starting from a reachable database without a `predictions`
table, a run with valid required variables succeeds with exit status 0,
appends exactly the `predictions` table, prints the one confirmation, and
the created shape has exactly the 10 columns of the spec with their
stated types: auto-incrementing integer (`SERIAL`) `id` as primary key,
`UUID` `prediction_id`, nullable `TEXT` `image_path` and `class_name`,
nullable `FLOAT` `confidence`, nullable `INT` bbox columns, and a
`TIMESTAMP` `created_at` defaulting to `NOW()`. -/
theorem fresh_run_creates_predictions (env : Env) (db : DBState)
    (hv : validEnv env = true)
    (h0 : db.any (fun t => t.name == "predictions") = false) :
    (run env World.allOk db).outcome = Outcome.success ∧
    exitCode (run env World.allOk db).outcome = 0 ∧
    (run env World.allOk db).db = db ++ [⟨"predictions", predictionsColumns, []⟩] ∧
    predictionsColumns.length = 10 ∧
    predictionsColumns.map (fun c => c.name) =
      ["id", "prediction_id", "image_path", "class_name", "confidence",
       "bbox_left", "bbox_top", "bbox_width", "bbox_height", "created_at"] ∧
    (colNamed "id").map (fun c => (c.sqlType, c.primaryKey)) = some ("SERIAL", true) ∧
    (colNamed "prediction_id").map (fun c => c.sqlType) = some "UUID" ∧
    (colNamed "image_path").map (fun c => (c.sqlType, c.notNull)) = some ("TEXT", false) ∧
    (colNamed "class_name").map (fun c => (c.sqlType, c.notNull)) = some ("TEXT", false) ∧
    (colNamed "confidence").map (fun c => (c.sqlType, c.notNull)) = some ("FLOAT", false) ∧
    (colNamed "bbox_left").map (fun c => (c.sqlType, c.notNull)) = some ("INT", false) ∧
    (colNamed "bbox_top").map (fun c => (c.sqlType, c.notNull)) = some ("INT", false) ∧
    (colNamed "bbox_width").map (fun c => (c.sqlType, c.notNull)) = some ("INT", false) ∧
    (colNamed "bbox_height").map (fun c => (c.sqlType, c.notNull)) = some ("INT", false) ∧
    (colNamed "created_at").map (fun c => (c.sqlType, c.dflt)) =
      some ("TIMESTAMP", some "NOW()") ∧
    ((run env World.allOk db).trace.countP isPrintedEvent) = 1 := by
  have h1 := run_valid_allOk env db hv
  refine ⟨by rw [h1], by rw [h1]; rfl, ?_, by decide, by decide, by decide, by decide,
    by decide, by decide, by decide, by decide, by decide, by decide, by decide,
    by decide, ?_⟩
  · rw [h1]
    show applyCreateIfNotExists db "predictions" predictionsColumns = _
    simp [applyCreateIfNotExists, h0]
  · rw [h1]
    simp [isPrintedEvent, List.countP_cons]

/-- Witness for C4: the spec §8 scenario environment against the empty
database. -/
theorem fresh_run_creates_predictions_wit :
    (run envEx World.allOk []).outcome = Outcome.success ∧
    exitCode (run envEx World.allOk []).outcome = 0 ∧
    (run envEx World.allOk []).db =
      ([] : DBState) ++ [⟨"predictions", predictionsColumns, []⟩] ∧
    predictionsColumns.length = 10 ∧
    predictionsColumns.map (fun c => c.name) =
      ["id", "prediction_id", "image_path", "class_name", "confidence",
       "bbox_left", "bbox_top", "bbox_width", "bbox_height", "created_at"] ∧
    (colNamed "id").map (fun c => (c.sqlType, c.primaryKey)) = some ("SERIAL", true) ∧
    (colNamed "prediction_id").map (fun c => c.sqlType) = some "UUID" ∧
    (colNamed "image_path").map (fun c => (c.sqlType, c.notNull)) = some ("TEXT", false) ∧
    (colNamed "class_name").map (fun c => (c.sqlType, c.notNull)) = some ("TEXT", false) ∧
    (colNamed "confidence").map (fun c => (c.sqlType, c.notNull)) = some ("FLOAT", false) ∧
    (colNamed "bbox_left").map (fun c => (c.sqlType, c.notNull)) = some ("INT", false) ∧
    (colNamed "bbox_top").map (fun c => (c.sqlType, c.notNull)) = some ("INT", false) ∧
    (colNamed "bbox_width").map (fun c => (c.sqlType, c.notNull)) = some ("INT", false) ∧
    (colNamed "bbox_height").map (fun c => (c.sqlType, c.notNull)) = some ("INT", false) ∧
    (colNamed "created_at").map (fun c => (c.sqlType, c.dflt)) =
      some ("TIMESTAMP", some "NOW()") ∧
    ((run envEx World.allOk []).trace.countP isPrintedEvent) = 1 :=
  fresh_run_creates_predictions envEx [] (by decide) rfl

/-- Claim C7: a run that ends normally exits with status 0 and its trace
is exactly the success trace, whose single `printed` event is the last
call, after the commit and after both releases; a run that raises exits
non-zero and prints nothing. -/
theorem success_single_confirmation (env : Env) (w : World) (db : DBState) :
    ((run env w db).outcome = Outcome.success →
       exitCode (run env w db).outcome = 0 ∧
       (run env w db).trace =
         [Event.connect (connParams env), Event.execute createTableSQL, Event.commit,
          Event.cursorClose, Event.connClose, Event.printed successMsg] ∧
       ((run env w db).trace.countP isPrintedEvent) = 1) ∧
    ((run env w db).outcome ≠ Outcome.success →
       exitCode (run env w db).outcome = 1 ∧
       ((run env w db).trace.countP isPrintedEvent) = 0) := by
  by_cases hc : pyFalsy env.POSTGRES_DB || pyFalsy env.POSTGRES_USER ||
      pyFalsy env.POSTGRES_PASSWORD
  · simp [run, hc, exitCode]
  · rcases w with ⟨wc, we, wcm⟩
    cases wc <;> cases we <;> cases wcm <;>
      simp [run, hc, exitCode, isPrintedEvent, List.countP_cons]

/-- Witness for C7 on a concrete successful run. -/
theorem success_single_confirmation_wit :
    exitCode (run envEx World.allOk []).outcome = 0 ∧
    (run envEx World.allOk []).trace =
      [Event.connect (connParams envEx), Event.execute createTableSQL, Event.commit,
       Event.cursorClose, Event.connClose, Event.printed successMsg] ∧
    ((run envEx World.allOk []).trace.countP isPrintedEvent) = 1 :=
  (success_single_confirmation envEx World.allOk []).1 (by decide)

/-- Claim C8 counterexample: a run that fails validation issues zero DDL
statements, so it is not the case that every run executes exactly one. -/
theorem ddl_count_not_always_one :
    ((run ⟨none, some "u", some "p", none, none⟩ World.allOk []).trace.countP
        isExecuteEvent) = 0 ∧
    ¬(((run ⟨none, some "u", some "p", none, none⟩ World.allOk []).trace.countP
        isExecuteEvent) = 1) := by
  decide

/-- Claim C8 (amended): every run issues at most one DDL statement — the
runs that pass validation and whose connect call succeeds issue exactly
one, and it is always the `CREATE TABLE IF NOT EXISTS predictions` text,
while a run that fails validation or whose connect call raises issues
zero — and the only possible change to the database is appending the
empty `predictions` table: every pre-existing table keeps its name,
columns and rows, and no row is ever inserted, updated or deleted. -/
theorem at_most_one_ddl_frame (env : Env) (w : World) (db : DBState) :
    ((run env w db).trace.filter isExecuteEvent = [] ∨
     (run env w db).trace.filter isExecuteEvent = [Event.execute createTableSQL]) ∧
    ((run env w db).trace.countP isExecuteEvent ≤ 1) ∧
    (validEnv env = true → w.connectRes = Except.ok () →
       (run env w db).trace.countP isExecuteEvent = 1) ∧
    (validEnv env = false →
       (run env w db).trace.countP isExecuteEvent = 0) ∧
    (w.connectRes ≠ Except.ok () →
       (run env w db).trace.countP isExecuteEvent = 0) ∧
    ((run env w db).db = db ∨
     (run env w db).db = db ++ [⟨"predictions", predictionsColumns, []⟩]) ∧
    ((run env w db).db.take db.length = db) := by
  by_cases hc : pyFalsy env.POSTGRES_DB || pyFalsy env.POSTGRES_USER ||
      pyFalsy env.POSTGRES_PASSWORD
  · refine ⟨Or.inl ?_, ?_, ?_, ?_, ?_, Or.inl ?_, ?_⟩ <;> simp [run, hc, validEnv]
  · rcases w with ⟨wc, we, wcm⟩
    cases wc <;> cases we <;> cases wcm <;>
      refine ⟨?_, ?_, ?_, ?_, ?_, ?_, ?_⟩ <;>
        simp [run, hc, validEnv, isExecuteEvent, List.countP_cons] <;>
        first
          | exact applyCreate_cases db "predictions" predictionsColumns
          | exact applyCreate_take db "predictions" predictionsColumns

/-- Witness for the amended C8: a concrete reachable run executes exactly
one DDL statement. -/
theorem at_most_one_ddl_frame_wit :
    (run envEx World.allOk []).trace.countP isExecuteEvent = 1 :=
  (at_most_one_ddl_frame envEx World.allOk []).2.2.1 (by decide) rfl

/-- Claim C9: in the created shape the `prediction_id` column is declared
NOT NULL and is neither auto-incremented nor defaulted, so an insert that
supplies no `prediction_id` is rejected; it is the only NOT NULL column —
every other non-key data column is nullable — and a row supplying only a
`prediction_id` is accepted. -/
theorem prediction_id_required (r : String → Option String)
    (h : r "prediction_id" = none) :
    rowAccepted predictionsColumns r = false ∧
    (predictionsColumns.filter (fun c => c.notNull)).map (fun c => c.name) =
      ["prediction_id"] ∧
    rowAccepted predictionsColumns
      (fun n => if n = "prediction_id"
        then some "00000000-0000-0000-0000-000000000000" else none) = true := by
  refine ⟨?_, by decide, by decide⟩
  simp [rowAccepted, predictionsColumns, colAutoSupplied, h]

/-- Witness for C9: the empty row is rejected. -/
theorem prediction_id_required_wit :
    rowAccepted predictionsColumns (fun _ => none) = false ∧
    (predictionsColumns.filter (fun c => c.notNull)).map (fun c => c.name) =
      ["prediction_id"] ∧
    rowAccepted predictionsColumns
      (fun n => if n = "prediction_id"
        then some "00000000-0000-0000-0000-000000000000" else none) = true :=
  prediction_id_required (fun _ => none) rfl

end InitDb
